import Mathlib

/-!
# Verification of the Real-or-AI web client's metrics and API layer

A shallow embedding of the metric-derivation and API-normalization code of
the Real_or_AI_NeuralNetworks_Project frontend, with theorems about the
behaviour of `ConfusionMatrix`, the axios response interceptor, the input
validation of the API service functions, the confidence normalization of
`PredictionResult`, and the epoch-series derivation of `MetricsCharts`.

Numbers are modelled as rationals; every concrete value appearing in a
theorem below is far from a rounding tie, so the one-decimal renderings
agree with the IEEE-754 evaluations performed by the JavaScript source.
-/

namespace RealOrAI

/-- One-decimal rounding as performed by `Number.prototype.toFixed(1)`
on finite values away from rounding ties: the nearest multiple of `1/10`. -/
def round1 (q : ℚ) : ℚ := ((round (10 * q) : ℤ) : ℚ) / 10

/-- A rendered metric cell of the `ConfusionMatrix` component: the literal
string `'N/A'`, the rendering `"NaN"` of the IEEE NaN value, or a finite
value rendered to one decimal place. -/
inductive Disp where
  | na : Disp
  | nanDisp : Disp
  | val : ℚ → Disp
  deriving DecidableEq

/-- The 2×2 confusion matrix `[[tn, fp], [fn, tp]]` destructured at the top
of the `ConfusionMatrix` component; entries are non-negative counts. -/
structure Matrix2 where
  tn : ℕ
  fp : ℕ
  fn : ℕ
  tp : ℕ

/-- `const total = tn + fp + fn + tp`. -/
def total (m : Matrix2) : ℕ := m.tn + m.fp + m.fn + m.tp

/-- `(tn + tp) / total * 100` before `toFixed`.  Over the natural-number
counts the JS division produces NaN exactly when `total = 0` (the numerator
is then 0 as well, and `0/0` is NaN); NaN is modelled as `none`. -/
def accuracyRaw (m : Matrix2) : Option ℚ :=
  if total m = 0 then none
  else some (((m.tn : ℚ) + (m.tp : ℚ)) / (total m : ℚ) * 100)

/-- `tp / (tp + fp) * 100` before `toFixed`; NaN (`tp + fp = 0`) is `none`. -/
def precisionRaw (m : Matrix2) : Option ℚ :=
  if m.tp + m.fp = 0 then none
  else some ((m.tp : ℚ) / ((m.tp : ℚ) + (m.fp : ℚ)) * 100)

/-- `tp / (tp + fn) * 100` before `toFixed`; NaN (`tp + fn = 0`) is `none`. -/
def recallRaw (m : Matrix2) : Option ℚ :=
  if m.tp + m.fn = 0 then none
  else some ((m.tp : ℚ) / ((m.tp : ℚ) + (m.fn : ℚ)) * 100)

/-- `x.toFixed(1)`: NaN renders as the string `"NaN"`, a finite value as its
one-decimal rounding. -/
def renderFixed1 : Option ℚ → Disp
  | none => Disp.nanDisp
  | some q => Disp.val (round1 q)

/-- The displayed accuracy cell (`recall` being a reserved word, the three
display cells carry a `Stat` suffix). -/
def accuracyStat (m : Matrix2) : Disp := renderFixed1 (accuracyRaw m)

/-- The displayed precision cell. -/
def precisionStat (m : Matrix2) : Disp := renderFixed1 (precisionRaw m)

/-- The displayed recall cell. -/
def recallStat (m : Matrix2) : Disp := renderFixed1 (recallRaw m)

/-- `const p = parseFloat(precision)`: parsing the one-decimal string back
gives the rounded value, and parsing `"NaN"` gives NaN again. -/
def pVal (m : Matrix2) : Option ℚ := (precisionRaw m).map round1

/-- `const r = parseFloat(recall)`. -/
def rVal (m : Matrix2) : Option ℚ := (recallRaw m).map round1

/-- `(p + r > 0) ? (2 * p * r / (p + r)).toFixed(1) : 'N/A'`.  A JS
comparison involving NaN is false, so a NaN `p` or `r` selects `'N/A'`. -/
def f1Score (m : Matrix2) : Disp :=
  match pVal m, rVal m with
  | some p, some r =>
      if 0 < p + r then Disp.val (round1 (2 * p * r / (p + r))) else Disp.na
  | _, _ => Disp.na

/-- The four summary cells rendered by the `ConfusionMatrix` component. -/
structure DerivedStats where
  accuracy : Disp
  precision : Disp
  recallStat : Disp
  f1 : Disp
  deriving DecidableEq

/-- The summary statistics derived by `ConfusionMatrix` from the matrix. -/
def deriveConfusionStats (m : Matrix2) : DerivedStats :=
  { accuracy := accuracyStat m
    precision := precisionStat m
    recallStat := recallStat m
    f1 := f1Score m }

/-- F1 as the specification's presentation-boundary-only rounding would
compute it: the harmonic mean of the unrounded precision and recall
percentages, rounded once for display.  This definition follows the spec's
words and exists to be compared with `f1Score`, which the source computes
from the already-rounded `p` and `r`. -/
def f1FromUnrounded (m : Matrix2) : Disp :=
  match precisionRaw m, recallRaw m with
  | some p, some r =>
      if 0 < p + r then Disp.val (round1 (2 * p * r / (p + r))) else Disp.na
  | _, _ => Disp.na

/-! ### Arithmetic facts about one-decimal rounding -/

theorem round1_mono {a b : ℚ} (h : a ≤ b) : round1 a ≤ round1 b := by
  have hr : round (10 * a) ≤ round (10 * b) := by
    rw [round_eq, round_eq]
    exact Int.floor_le_floor (by linarith)
  have hc : ((round (10 * a) : ℤ) : ℚ) ≤ ((round (10 * b) : ℤ) : ℚ) :=
    Int.cast_le.mpr hr
  rw [round1, round1]
  linarith

theorem round1_int_div_ten (k : ℤ) : round1 ((k : ℚ) / 10) = (k : ℚ) / 10 := by
  have h : (10 : ℚ) * ((k : ℚ) / 10) = (k : ℚ) := by ring
  rw [round1, h, round_intCast]

theorem round1_zero : round1 0 = 0 := by
  have h := round1_int_div_ten 0
  simpa using h

theorem round1_hundred : round1 100 = 100 := by
  have h := round1_int_div_ten 1000
  norm_num at h
  exact h

theorem round1_nonneg {q : ℚ} (h : 0 ≤ q) : 0 ≤ round1 q :=
  round1_zero ▸ round1_mono h

theorem round1_le_hundred {q : ℚ} (h : q ≤ 100) : round1 q ≤ 100 :=
  round1_hundred ▸ round1_mono h

theorem round1_round1 (q : ℚ) : round1 (round1 q) = round1 q :=
  round1_int_div_ten (round (10 * q))

/-- A percentage of a part of a whole lies within `[0, 100]`. -/
theorem pct_bounds (a b : ℕ) (hb : 0 < b) (hab : a ≤ b) :
    0 ≤ (a : ℚ) / (b : ℚ) * 100 ∧ (a : ℚ) / (b : ℚ) * 100 ≤ 100 := by
  have hbq : (0 : ℚ) < (b : ℚ) := by exact_mod_cast hb
  have habq : (a : ℚ) ≤ (b : ℚ) := by exact_mod_cast hab
  constructor
  · positivity
  · rw [div_mul_eq_mul_div, div_le_iff₀ hbq]
    nlinarith

/-- The harmonic mean of two non-negative numbers with positive sum lies
between them. -/
theorem harmonic_mean_between {p r : ℚ} (hp : 0 ≤ p) (hr : 0 ≤ r)
    (hpr : 0 < p + r) :
    min p r ≤ 2 * p * r / (p + r) ∧ 2 * p * r / (p + r) ≤ max p r := by
  rcases le_total p r with h | h
  · rw [min_eq_left h, max_eq_right h]
    constructor
    · rw [le_div_iff₀ hpr]; nlinarith
    · rw [div_le_iff₀ hpr]; nlinarith
  · rw [min_eq_right h, max_eq_left h]
    constructor
    · rw [le_div_iff₀ hpr]; nlinarith
    · rw [div_le_iff₀ hpr]; nlinarith

/-! ### Theorems about the ConfusionMatrix component -/

/-- Claim C1: on the confusion matrix `[[4250, 350], [420, 4980]]` the
component renders accuracy 92.3, precision 93.4, recall 92.2 and f1 92.8
(all to one decimal). -/
theorem deriveConfusionStats_mock_matrix_values :
    deriveConfusionStats ⟨4250, 350, 420, 4980⟩ =
      ⟨Disp.val (923 / 10), Disp.val (467 / 5), Disp.val (461 / 5),
        Disp.val (464 / 5)⟩ := by
  norm_num [deriveConfusionStats, accuracyStat, precisionStat, recallStat,
    f1Score, pVal, rVal, accuracyRaw, precisionRaw, recallRaw, renderFixed1,
    total, round1, round_eq]

/-- Claim C4: whenever `tp + fp`, `tp + fn` and the total are positive, the
rendered accuracy, precision and recall are finite values in `[0, 100]`,
and whenever f1 renders a finite value it lies between the rendered
precision and recall. -/
theorem deriveConfusionStats_bounds (m : Matrix2)
    (hpf : 0 < m.tp + m.fp) (hrf : 0 < m.tp + m.fn) (ht : 0 < total m) :
    (∃ a, (deriveConfusionStats m).accuracy = Disp.val a ∧ 0 ≤ a ∧ a ≤ 100) ∧
    (∃ p, (deriveConfusionStats m).precision = Disp.val p ∧ 0 ≤ p ∧ p ≤ 100) ∧
    (∃ r, (deriveConfusionStats m).recallStat = Disp.val r ∧ 0 ≤ r ∧ r ≤ 100) ∧
    (∀ p r f, (deriveConfusionStats m).precision = Disp.val p →
      (deriveConfusionStats m).recallStat = Disp.val r →
      (deriveConfusionStats m).f1 = Disp.val f →
      min p r ≤ f ∧ f ≤ max p r) := by
  have hcastp : (m.tp : ℚ) + (m.fp : ℚ) = ((m.tp + m.fp : ℕ) : ℚ) := by push_cast; ring
  have hcastr : (m.tp : ℚ) + (m.fn : ℚ) = ((m.tp + m.fn : ℕ) : ℚ) := by push_cast; ring
  have hcasta : (m.tn : ℚ) + (m.tp : ℚ) = ((m.tn + m.tp : ℕ) : ℚ) := by push_cast; ring
  have haB := pct_bounds (m.tn + m.tp) (total m) ht (by unfold total; omega)
  have hpB := pct_bounds m.tp (m.tp + m.fp) hpf (Nat.le_add_right _ _)
  have hrB := pct_bounds m.tp (m.tp + m.fn) hrf (Nat.le_add_right _ _)
  have hpraw : precisionRaw m = some ((m.tp : ℚ) / ((m.tp : ℚ) + (m.fp : ℚ)) * 100) := by
    rw [precisionRaw, if_neg hpf.ne']
  have hrraw : recallRaw m = some ((m.tp : ℚ) / ((m.tp : ℚ) + (m.fn : ℚ)) * 100) := by
    rw [recallRaw, if_neg hrf.ne']
  have haraw : accuracyRaw m =
      some (((m.tn : ℚ) + (m.tp : ℚ)) / (total m : ℚ) * 100) := by
    rw [accuracyRaw, if_neg ht.ne']
  refine ⟨⟨round1 (((m.tn : ℚ) + (m.tp : ℚ)) / (total m : ℚ) * 100), ?_, ?_, ?_⟩,
    ⟨round1 ((m.tp : ℚ) / ((m.tp : ℚ) + (m.fp : ℚ)) * 100), ?_, ?_, ?_⟩,
    ⟨round1 ((m.tp : ℚ) / ((m.tp : ℚ) + (m.fn : ℚ)) * 100), ?_, ?_, ?_⟩, ?_⟩
  · rw [deriveConfusionStats]; rw [accuracyStat, haraw, renderFixed1]
  · exact round1_nonneg (by rw [hcasta]; exact haB.1)
  · exact round1_le_hundred (by rw [hcasta]; exact haB.2)
  · rw [deriveConfusionStats]; rw [precisionStat, hpraw, renderFixed1]
  · exact round1_nonneg (by rw [hcastp]; exact hpB.1)
  · exact round1_le_hundred (by rw [hcastp]; exact hpB.2)
  · rw [deriveConfusionStats]; rw [recallStat, hrraw, renderFixed1]
  · exact round1_nonneg (by rw [hcastr]; exact hrB.1)
  · exact round1_le_hundred (by rw [hcastr]; exact hrB.2)
  · intro p r f hpd hrd hfd
    rw [deriveConfusionStats] at hpd hrd hfd
    simp only [precisionStat, hpraw, renderFixed1, Disp.val.injEq] at hpd
    simp only [recallStat, hrraw, renderFixed1, Disp.val.injEq] at hrd
    simp only [f1Score, pVal, rVal, hpraw, hrraw, Option.map_some'] at hfd
    rw [hpd, hrd] at hfd
    have hp0 : 0 ≤ p := hpd ▸ round1_nonneg (by rw [hcastp]; exact hpB.1)
    have hr0 : 0 ≤ r := hrd ▸ round1_nonneg (by rw [hcastr]; exact hrB.1)
    by_cases hsum : 0 < p + r
    · rw [if_pos hsum, Disp.val.injEq] at hfd
      have hhm := harmonic_mean_between hp0 hr0 hsum
      have hgrid_p : round1 p = p := by rw [← hpd]; exact round1_round1 _
      have hgrid_r : round1 r = r := by rw [← hrd]; exact round1_round1 _
      have hmin : round1 (min p r) = min p r := by
        rcases min_cases p r with ⟨h1, _⟩ | ⟨h1, _⟩ <;> rw [h1]
        · exact hgrid_p
        · exact hgrid_r
      have hmax : round1 (max p r) = max p r := by
        rcases max_cases p r with ⟨h1, _⟩ | ⟨h1, _⟩ <;> rw [h1]
        · exact hgrid_p
        · exact hgrid_r
      constructor
      · calc min p r = round1 (min p r) := hmin.symm
          _ ≤ round1 (2 * p * r / (p + r)) := round1_mono hhm.1
          _ = f := hfd
      · calc f = round1 (2 * p * r / (p + r)) := hfd.symm
          _ ≤ round1 (max p r) := round1_mono hhm.2
          _ = max p r := hmax
    · rw [if_neg hsum] at hfd
      exact absurd hfd (by simp)

/-- Claim C4 witness: the bounds at the all-ones matrix, where precision,
recall and f1 all render as 50.0. -/
theorem deriveConfusionStats_bounds_witness :
    min (50 : ℚ) 50 ≤ 50 ∧ (50 : ℚ) ≤ max (50 : ℚ) 50 :=
  (deriveConfusionStats_bounds ⟨1, 1, 1, 1⟩ (by norm_num) (by norm_num)
    (by norm_num [total])).2.2.2 50 50 50
    (by norm_num [deriveConfusionStats, precisionStat, precisionRaw,
      renderFixed1, round1, round_eq])
    (by norm_num [deriveConfusionStats, recallStat, recallRaw,
      renderFixed1, round1, round_eq])
    (by norm_num [deriveConfusionStats, f1Score, pVal, rVal, precisionRaw,
      recallRaw, round1, round_eq])

/-- Claim C5 counterexample: on the matrix `[[0, 0], [11, 1]]` the component
renders f1 as 15.3 (harmonic mean of the already-rounded p = 100.0 and
r = 8.3), while rounding only at the presentation boundary would render
15.4 — so an intermediate value feeding the f1 computation is itself a
rounded value. -/
theorem f1Score_double_rounding_counterexample :
    (deriveConfusionStats ⟨0, 0, 11, 1⟩).f1 = Disp.val (153 / 10) ∧
    f1FromUnrounded ⟨0, 0, 11, 1⟩ = Disp.val (77 / 5) ∧
    (deriveConfusionStats ⟨0, 0, 11, 1⟩).f1 ≠ f1FromUnrounded ⟨0, 0, 11, 1⟩ := by
  refine ⟨?_, ?_, ?_⟩ <;>
    norm_num [deriveConfusionStats, f1Score, f1FromUnrounded, pVal, rVal,
      precisionRaw, recallRaw, round1, round_eq]

/-- Claim C5 amended: accuracy, precision and recall are each rounded
exactly once, at the presentation boundary, from the exact percentage
values; f1, however, is computed from the already-rounded one-decimal
precision and recall (`parseFloat` of the rendered strings), and the
derivation is a pure function of the matrix, so repeated derivation is
idempotent and exact. -/
theorem deriveConfusionStats_rounding_structure (m : Matrix2)
    (hpf : 0 < m.tp + m.fp) (hrf : 0 < m.tp + m.fn) (ht : 0 < total m) :
    (deriveConfusionStats m).accuracy =
      Disp.val (round1 (((m.tn : ℚ) + (m.tp : ℚ)) / (total m : ℚ) * 100)) ∧
    (deriveConfusionStats m).precision =
      Disp.val (round1 ((m.tp : ℚ) / ((m.tp : ℚ) + (m.fp : ℚ)) * 100)) ∧
    (deriveConfusionStats m).recallStat =
      Disp.val (round1 ((m.tp : ℚ) / ((m.tp : ℚ) + (m.fn : ℚ)) * 100)) ∧
    (∀ p r, pVal m = some p → rVal m = some r →
      p = round1 ((m.tp : ℚ) / ((m.tp : ℚ) + (m.fp : ℚ)) * 100) ∧
      r = round1 ((m.tp : ℚ) / ((m.tp : ℚ) + (m.fn : ℚ)) * 100) ∧
      (deriveConfusionStats m).f1 =
        (if 0 < p + r then Disp.val (round1 (2 * p * r / (p + r)))
         else Disp.na)) ∧
    deriveConfusionStats m = deriveConfusionStats m := by
  have hpraw : precisionRaw m =
      some ((m.tp : ℚ) / ((m.tp : ℚ) + (m.fp : ℚ)) * 100) := by
    rw [precisionRaw, if_neg hpf.ne']
  have hrraw : recallRaw m =
      some ((m.tp : ℚ) / ((m.tp : ℚ) + (m.fn : ℚ)) * 100) := by
    rw [recallRaw, if_neg hrf.ne']
  have haraw : accuracyRaw m =
      some (((m.tn : ℚ) + (m.tp : ℚ)) / (total m : ℚ) * 100) := by
    rw [accuracyRaw, if_neg ht.ne']
  refine ⟨?_, ?_, ?_, ?_, rfl⟩
  · rw [deriveConfusionStats]; rw [accuracyStat, haraw, renderFixed1]
  · rw [deriveConfusionStats]; rw [precisionStat, hpraw, renderFixed1]
  · rw [deriveConfusionStats]; rw [recallStat, hrraw, renderFixed1]
  · intro p r hp hr
    rw [pVal, hpraw, Option.map_some', Option.some.injEq] at hp
    rw [rVal, hrraw, Option.map_some', Option.some.injEq] at hr
    refine ⟨hp.symm, hr.symm, ?_⟩
    rw [deriveConfusionStats]
    simp only [f1Score, pVal, rVal, hpraw, hrraw, Option.map_some']
    rw [hp, hr]

/-- Claim C5 amended, witness: the structure of the computation at the
matrix `[[4250, 350], [420, 4980]]`, whose rounded p and r are 93.4 and
92.2. -/
theorem deriveConfusionStats_rounding_structure_witness :
    (deriveConfusionStats ⟨4250, 350, 420, 4980⟩).f1 =
      (if 0 < (467 : ℚ) / 5 + 461 / 5 then
        Disp.val (round1 (2 * (467 / 5) * (461 / 5) / (467 / 5 + 461 / 5)))
       else Disp.na) :=
  ((deriveConfusionStats_rounding_structure ⟨4250, 350, 420, 4980⟩
    (by norm_num) (by norm_num) (by norm_num [total])).2.2.2.1
    (467 / 5) (461 / 5)
    (by norm_num [pVal, precisionRaw, round1, round_eq])
    (by norm_num [rVal, recallRaw, round1, round_eq])).2.2

/-- Claim C6 counterexample: on the matrix `[[1, 0], [1, 0]]` (so
`tp + fp = 0`) the precision cell renders the string `"NaN"`, produced by
`toFixed` on the NaN of the `0/0` division, not the literal `'N/A'`. -/
theorem precisionStat_nan_not_na :
    (deriveConfusionStats ⟨1, 0, 1, 0⟩).precision = Disp.nanDisp ∧
    (deriveConfusionStats ⟨1, 0, 1, 0⟩).precision ≠ Disp.na := by
  constructor <;>
    simp [deriveConfusionStats, precisionStat, precisionRaw, renderFixed1]

/-- Claim C6 amended: with `tp + fp = 0` the precision cell renders `"NaN"`
(the `toFixed` rendering of the NaN produced by `0/0`), not `'N/A'`;
likewise recall with `tp + fn = 0`; and the f1 cell renders `'N/A'` exactly
when precision is NaN, recall is NaN, or the parsed one-decimal values `p`
and `r` are both zero. -/
theorem undefined_stats_render (m : Matrix2) :
    (m.tp + m.fp = 0 → (deriveConfusionStats m).precision = Disp.nanDisp) ∧
    (m.tp + m.fn = 0 → (deriveConfusionStats m).recallStat = Disp.nanDisp) ∧
    ((deriveConfusionStats m).f1 = Disp.na ↔
      precisionRaw m = none ∨ recallRaw m = none ∨
        (pVal m = some 0 ∧ rVal m = some 0)) := by
  refine ⟨?_, ?_, ?_⟩
  · intro h
    rw [deriveConfusionStats]
    rw [precisionStat, precisionRaw, if_pos h, renderFixed1]
  · intro h
    rw [deriveConfusionStats]
    rw [recallStat, recallRaw, if_pos h, renderFixed1]
  · rw [deriveConfusionStats]
    by_cases hpf : m.tp + m.fp = 0
    · have hpn : precisionRaw m = none := by rw [precisionRaw, if_pos hpf]
      simp [f1Score, pVal, hpn]
    · have hpraw : precisionRaw m =
          some ((m.tp : ℚ) / ((m.tp : ℚ) + (m.fp : ℚ)) * 100) := by
        rw [precisionRaw, if_neg hpf]
      by_cases hrf : m.tp + m.fn = 0
      · have hrn : recallRaw m = none := by rw [recallRaw, if_pos hrf]
        simp [f1Score, pVal, rVal, hpraw, hrn]
      · have hrraw : recallRaw m =
            some ((m.tp : ℚ) / ((m.tp : ℚ) + (m.fn : ℚ)) * 100) := by
          rw [recallRaw, if_neg hrf]
        have hp0 : 0 ≤ round1 ((m.tp : ℚ) / ((m.tp : ℚ) + (m.fp : ℚ)) * 100) := by
          apply round1_nonneg
          have hbq : (0 : ℚ) < (m.tp : ℚ) + (m.fp : ℚ) := by
            have : (0 : ℚ) < ((m.tp + m.fp : ℕ) : ℚ) := by
              exact_mod_cast Nat.pos_of_ne_zero hpf
            push_cast at this
            linarith
          positivity
        have hr0 : 0 ≤ round1 ((m.tp : ℚ) / ((m.tp : ℚ) + (m.fn : ℚ)) * 100) := by
          apply round1_nonneg
          have hbq : (0 : ℚ) < (m.tp : ℚ) + (m.fn : ℚ) := by
            have : (0 : ℚ) < ((m.tp + m.fn : ℕ) : ℚ) := by
              exact_mod_cast Nat.pos_of_ne_zero hrf
            push_cast at this
            linarith
          positivity
        have hf1 : f1Score m =
            (if 0 < round1 ((m.tp : ℚ) / ((m.tp : ℚ) + (m.fp : ℚ)) * 100) +
                round1 ((m.tp : ℚ) / ((m.tp : ℚ) + (m.fn : ℚ)) * 100) then
              Disp.val (round1
                (2 * round1 ((m.tp : ℚ) / ((m.tp : ℚ) + (m.fp : ℚ)) * 100) *
                  round1 ((m.tp : ℚ) / ((m.tp : ℚ) + (m.fn : ℚ)) * 100) /
                  (round1 ((m.tp : ℚ) / ((m.tp : ℚ) + (m.fp : ℚ)) * 100) +
                    round1 ((m.tp : ℚ) / ((m.tp : ℚ) + (m.fn : ℚ)) * 100))))
             else Disp.na) := by
          rw [f1Score, pVal, rVal, hpraw, hrraw, Option.map_some',
            Option.map_some']
        rw [hf1, hpraw, hrraw, pVal, rVal, hpraw, hrraw, Option.map_some',
          Option.map_some']
        by_cases hsum :
            0 < round1 ((m.tp : ℚ) / ((m.tp : ℚ) + (m.fp : ℚ)) * 100) +
              round1 ((m.tp : ℚ) / ((m.tp : ℚ) + (m.fn : ℚ)) * 100)
        · rw [if_pos hsum]
          constructor
          · intro h
            exact absurd h (by simp)
          · rintro (h | h | ⟨hpz, hrz⟩)
            · exact absurd h (by simp)
            · exact absurd h (by simp)
            · rw [Option.some.injEq] at hpz hrz
              rw [hpz, hrz] at hsum
              norm_num at hsum
        · rw [if_neg hsum]
          push_neg at hsum
          constructor
          · intro _
            refine Or.inr (Or.inr ⟨?_, ?_⟩)
            · rw [Option.some.injEq]
              exact le_antisymm (by linarith) hp0
            · rw [Option.some.injEq]
              exact le_antisymm (by linarith) hr0
          · intro _
            rfl

/-- Claim C6 amended, witness: at the matrix `[[1, 0], [0, 0]]` both
denominators vanish, precision and recall render `"NaN"`, and f1 renders
`'N/A'`. -/
theorem undefined_stats_render_witness :
    (deriveConfusionStats ⟨1, 0, 0, 0⟩).precision = Disp.nanDisp ∧
    (deriveConfusionStats ⟨1, 0, 0, 0⟩).recallStat = Disp.nanDisp ∧
    (deriveConfusionStats ⟨1, 0, 0, 0⟩).f1 = Disp.na :=
  ⟨(undefined_stats_render ⟨1, 0, 0, 0⟩).1 rfl,
   (undefined_stats_render ⟨1, 0, 0, 0⟩).2.1 rfl,
   ((undefined_stats_render ⟨1, 0, 0, 0⟩).2.2).mpr
     (Or.inl (by rw [precisionRaw]; norm_num))⟩

/-! ### API service layer: the axios response interceptor -/

/-- The body attached to a failed HTTP response: the interceptor probes its
`error` and `message` fields, either of which may be absent. -/
structure ResponseData where
  errField : Option String
  msgField : Option String

/-- `error.response`: present whenever the server answered at all; `status`
is the HTTP status code and `data` the (possibly absent) parsed body. -/
structure ErrorResponse where
  status : ℕ
  data : Option ResponseData

/-- The axios error object reaching the interceptor: its own `message`
string and the optional `response`. -/
structure TransportFailure where
  message : Option String
  response : Option ErrorResponse

/-- The normalized error object the interceptor rejects with: a `message`
and an HTTP-like `status` (the object also keeps `originalError`, which
carries no information beyond the input). -/
structure StandardError where
  message : String
  status : ℕ
  deriving DecidableEq

/-- JS `a || b` where `a` is a possibly-absent string: `undefined` and the
empty string are falsy, so they fall through to `b`. -/
def jsOrString (a : Option String) (b : String) : String :=
  match a with
  | some s => if s = "" then b else s
  | none => b

/-- A possibly-absent string that JS treats as falsy: absent, or empty. -/
def falsyStr (a : Option String) : Prop := a = none ∨ a = some ""

/-- `error.response?.data?.error`. -/
def dataErrField (e : TransportFailure) : Option String :=
  (e.response.bind ErrorResponse.data).bind ResponseData.errField

/-- `error.response?.data?.message`. -/
def dataMsgField (e : TransportFailure) : Option String :=
  (e.response.bind ErrorResponse.data).bind ResponseData.msgField

/-- The response interceptor's rejection handler: builds the message by the
`||` chain over the body's `error` field, the body's `message` field and
the error's own message, with a generic fallback, and attaches
`error.response?.status || 500` (a missing response, and the falsy status
0, both yield 500). -/
def interceptResponseFailure (e : TransportFailure) : StandardError :=
  { message :=
      jsOrString (dataErrField e)
        (jsOrString (dataMsgField e)
          (jsOrString e.message "An unexpected error occurred"))
    status :=
      match e.response with
      | some r => if r.status = 0 then 500 else r.status
      | none => 500 }

/-- Claim C2: the interceptor delivers a single `StandardError` whose
message is chosen in priority order from the body's `error` field, the
body's `message` field, the transport error's own message, and a generic
fallback, and whose status is the response's HTTP status (a positive code)
when a response is present and 500 otherwise; in particular a transport
failure with no response yields a non-empty message and status 500. -/
theorem interceptResponseFailure_normalizes (e : TransportFailure) :
    (∀ s, dataErrField e = some s → s ≠ "" →
      (interceptResponseFailure e).message = s) ∧
    (falsyStr (dataErrField e) → ∀ s, dataMsgField e = some s → s ≠ "" →
      (interceptResponseFailure e).message = s) ∧
    (falsyStr (dataErrField e) → falsyStr (dataMsgField e) →
      ∀ s, e.message = some s → s ≠ "" →
      (interceptResponseFailure e).message = s) ∧
    (falsyStr (dataErrField e) → falsyStr (dataMsgField e) →
      falsyStr e.message →
      (interceptResponseFailure e).message = "An unexpected error occurred") ∧
    (∀ r, e.response = some r → 0 < r.status →
      (interceptResponseFailure e).status = r.status) ∧
    (e.response = none →
      (interceptResponseFailure e).message ≠ "" ∧
      (interceptResponseFailure e).status = 500) := by
  have hfalsy : ∀ (a : Option String) (b : String),
      falsyStr a → jsOrString a b = b := by
    rintro a b (rfl | rfl)
    · rfl
    · rw [jsOrString]
      simp
  have htruthy : ∀ (a : Option String) (b s : String),
      a = some s → s ≠ "" → jsOrString a b = s := by
    rintro a b s rfl hs
    rw [jsOrString]
    simp [hs]
  have hnonempty : ∀ (a : Option String) (b : String), b ≠ "" →
      jsOrString a b ≠ "" := by
    intro a b hb
    match a with
    | none => exact hb
    | some s =>
      rw [jsOrString]
      by_cases hs : s = ""
      · rw [if_pos hs]; exact hb
      · rw [if_neg hs]; exact hs
  refine ⟨?_, ?_, ?_, ?_, ?_, ?_⟩
  · intro s hs hne
    exact htruthy _ _ _ hs hne
  · intro h1 s hs hne
    rw [interceptResponseFailure]
    rw [hfalsy _ _ h1, htruthy _ _ _ hs hne]
  · intro h1 h2 s hs hne
    rw [interceptResponseFailure]
    rw [hfalsy _ _ h1, hfalsy _ _ h2, htruthy _ _ _ hs hne]
  · intro h1 h2 h3
    rw [interceptResponseFailure]
    rw [hfalsy _ _ h1, hfalsy _ _ h2, hfalsy _ _ h3]
  · intro r hr hpos
    rw [interceptResponseFailure, hr]
    simp [hpos.ne']
  · intro hnone
    constructor
    · exact hnonempty _ _ (hnonempty _ _ (hnonempty _ _ (by decide)))
    · rw [interceptResponseFailure, hnone]

/-- Claim C2 witness: a pure transport failure (no response object, its own
message empty) is normalized to the generic message and status 500. -/
theorem interceptResponseFailure_normalizes_witness :
    (⟨some "", none⟩ : TransportFailure).response = none ∧
    (interceptResponseFailure ⟨some "", none⟩).message ≠ "" ∧
    (interceptResponseFailure ⟨some "", none⟩).status = 500 :=
  ⟨rfl, (interceptResponseFailure_normalizes ⟨some "", none⟩).2.2.2.2.2 rfl⟩

/-! ### API service layer: input validation before dispatch -/

/-- The observable outcome of one API service function: a client-side
validation failure thrown before any network activity (carrying the thrown
message), or a single outbound request to the given path. -/
inductive ApiCall where
  | validationFailure : String → ApiCall
  | networkRequest : String → ApiCall
  deriving DecidableEq

/-- `true` exactly on the validation-failure outcome. -/
def isValidationFailure : ApiCall → Bool
  | ApiCall.validationFailure _ => true
  | ApiCall.networkRequest _ => false

/-- The number of outbound requests an outcome performs. -/
def requestCount : ApiCall → ℕ
  | ApiCall.validationFailure _ => 0
  | ApiCall.networkRequest _ => 1

/-- The two fields of the uploaded `File` that `uploadImageAndPredict`
inspects: its MIME `type` and its `size` in bytes. -/
structure ImageFile where
  type : String
  size : ℕ

/-- `const validTypes = ['image/jpeg', 'image/png', 'image/webp',
'image/gif']`. -/
def validTypes : List String :=
  ["image/jpeg", "image/png", "image/webp", "image/gif"]

/-- `uploadImageAndPredict` on a provided file: reject unknown MIME types,
then sizes above `10 * 1024 * 1024` bytes, then issue the one multipart
POST to `/api/predict` (the earlier `!imageFile` guard concerns an absent
argument and is outside this model, which always receives a file). -/
def uploadImageAndPredict (f : ImageFile) : ApiCall :=
  if ¬ (f.type ∈ validTypes) then
    ApiCall.validationFailure
      "Invalid file type. Please upload a JPEG, PNG, WebP, or GIF image."
  else if 10 * 1024 * 1024 < f.size then
    ApiCall.validationFailure "File too large. Maximum size is 10MB."
  else
    ApiCall.networkRequest "/api/predict"

/-- Claim C3: a file whose MIME type is not among the four accepted ones,
or whose size exceeds 10 MiB, fails validation with zero outbound requests;
a file passing both checks produces exactly one request, to
`/api/predict`. -/
theorem uploadImageAndPredict_validates (f : ImageFile) :
    ((f.type ∉ validTypes ∨ 10 * 1024 * 1024 < f.size) →
      isValidationFailure (uploadImageAndPredict f) = true ∧
      requestCount (uploadImageAndPredict f) = 0) ∧
    (f.type ∈ validTypes → f.size ≤ 10 * 1024 * 1024 →
      uploadImageAndPredict f = ApiCall.networkRequest "/api/predict" ∧
      requestCount (uploadImageAndPredict f) = 1) := by
  constructor
  · rintro (hty | hsz)
    · rw [uploadImageAndPredict, if_pos hty]
      exact ⟨rfl, rfl⟩
    · rw [uploadImageAndPredict]
      by_cases hty : f.type ∈ validTypes
      · rw [if_neg (by simpa using hty), if_pos hsz]
        exact ⟨rfl, rfl⟩
      · rw [if_pos hty]
        exact ⟨rfl, rfl⟩
  · intro hty hsz
    rw [uploadImageAndPredict, if_neg (by simpa using hty),
      if_neg (by omega)]
    exact ⟨rfl, rfl⟩

/-- Claim C3 witness: a 15 MB `text/plain` file fails validation with no
request, and a small PNG issues exactly one request to `/api/predict`. -/
theorem uploadImageAndPredict_validates_witness :
    ("text/plain" ∉ validTypes ∨
      10 * 1024 * 1024 < (⟨"text/plain", 15 * 1024 * 1024⟩ : ImageFile).size) ∧
    isValidationFailure (uploadImageAndPredict ⟨"text/plain", 15 * 1024 * 1024⟩) = true ∧
    requestCount (uploadImageAndPredict ⟨"text/plain", 15 * 1024 * 1024⟩) = 0 ∧
    uploadImageAndPredict ⟨"image/png", 1024⟩ = ApiCall.networkRequest "/api/predict" ∧
    requestCount (uploadImageAndPredict ⟨"image/png", 1024⟩) = 1 :=
  ⟨Or.inl (by decide),
   ((uploadImageAndPredict_validates ⟨"text/plain", 15 * 1024 * 1024⟩).1
     (Or.inl (by decide))).1,
   ((uploadImageAndPredict_validates ⟨"text/plain", 15 * 1024 * 1024⟩).1
     (Or.inl (by decide))).2,
   ((uploadImageAndPredict_validates ⟨"image/png", 1024⟩).2
     (by decide) (by norm_num)).1,
   ((uploadImageAndPredict_validates ⟨"image/png", 1024⟩).2
     (by decide) (by norm_num)).2⟩

/-- A chat message as `sendChatMessage` sees it: the `role` and `content`
properties may each be absent (and an empty string is falsy to JS). -/
structure ChatMessage where
  role : Option String
  content : Option String
  deriving DecidableEq

/-- JS truthiness of a possibly-absent string property. -/
def truthyStr : Option String → Bool
  | none => false
  | some s => !(s == "")

/-- `sendChatMessage`: reject a missing or empty `messages` array, then any
message with a falsy `role` or `content`, then issue the one POST to
`/api/chat` (the typed model covers the array case of the
`!Array.isArray(messages)` guard). -/
def sendChatMessage (messages : List ChatMessage) : ApiCall :=
  if messages.isEmpty then
    ApiCall.validationFailure "Messages array is required"
  else if messages.any (fun msg => !truthyStr msg.role || !truthyStr msg.content) then
    ApiCall.validationFailure "Each message must have a role and content"
  else
    ApiCall.networkRequest "/api/chat"

/-- Claim C7: `sendChatMessage` fails validation, with zero outbound
requests, whenever the messages list is empty or some message lacks a
truthy role or content — and only then. -/
theorem sendChatMessage_validates (messages : List ChatMessage) :
    ((messages = [] ∨ ∃ msg ∈ messages,
        truthyStr msg.role = false ∨ truthyStr msg.content = false) →
      isValidationFailure (sendChatMessage messages) = true ∧
      requestCount (sendChatMessage messages) = 0) ∧
    (messages ≠ [] →
      (∀ msg ∈ messages,
        truthyStr msg.role = true ∧ truthyStr msg.content = true) →
      sendChatMessage messages = ApiCall.networkRequest "/api/chat" ∧
      requestCount (sendChatMessage messages) = 1) := by
  constructor
  · rintro (rfl | ⟨msg, hmem, hbad⟩)
    · exact ⟨rfl, rfl⟩
    · rw [sendChatMessage]
      by_cases hemp : messages.isEmpty
      · rw [if_pos hemp]
        exact ⟨rfl, rfl⟩
      · rw [if_neg hemp, if_pos ?_]
        · exact ⟨rfl, rfl⟩
        · rw [List.any_eq_true]
          refine ⟨msg, hmem, ?_⟩
          rcases hbad with h | h <;> simp [h]
  · intro hne hall
    rw [sendChatMessage, if_neg (by simpa using hne), if_neg ?_]
    · exact ⟨rfl, rfl⟩
    · rw [List.any_eq_true]
      rintro ⟨msg, hmem, hbad⟩
      rcases hall msg hmem with ⟨h1, h2⟩
      rw [h1, h2] at hbad
      simp at hbad

/-- Claim C7 witness: the empty conversation and the single message
`{role: "user"}` with no content both fail validation without any
request. -/
theorem sendChatMessage_validates_witness :
    isValidationFailure (sendChatMessage []) = true ∧
    requestCount (sendChatMessage []) = 0 ∧
    isValidationFailure (sendChatMessage [⟨some "user", none⟩]) = true ∧
    requestCount (sendChatMessage [⟨some "user", none⟩]) = 0 :=
  ⟨((sendChatMessage_validates []).1 (Or.inl rfl)).1,
   ((sendChatMessage_validates []).1 (Or.inl rfl)).2,
   ((sendChatMessage_validates [⟨some "user", none⟩]).1
     (Or.inr ⟨⟨some "user", none⟩, by decide, Or.inr rfl⟩)).1,
   ((sendChatMessage_validates [⟨some "user", none⟩]).1
     (Or.inr ⟨⟨some "user", none⟩, by decide, Or.inr rfl⟩)).2⟩

/-! ### PredictionResult: confidence normalization -/

/-- `const confidencePercent = confidence > 1 ? confidence :
confidence * 100`. -/
def confidencePercent (confidence : ℚ) : ℚ :=
  if 1 < confidence then confidence else confidence * 100

/-- Claim C8: for a confidence arriving as a fraction in `[0, 1]` or as a
percentage in `[0, 100]`, the normalized display percentage lies in
`[0, 100]`. -/
theorem confidencePercent_bounds (c : ℚ)
    (h : (0 ≤ c ∧ c ≤ 1) ∨ (0 ≤ c ∧ c ≤ 100)) :
    0 ≤ confidencePercent c ∧ confidencePercent c ≤ 100 := by
  rw [confidencePercent]
  rcases h with ⟨h0, h1⟩ | ⟨h0, h1⟩
  · rw [if_neg (by linarith)]
    constructor <;> nlinarith
  · by_cases hc : 1 < c
    · rw [if_pos hc]
      exact ⟨h0, h1⟩
    · rw [if_neg hc]
      push_neg at hc
      constructor <;> nlinarith

/-- Claim C8 witness: the mock confidence 0.93 normalizes into `[0, 100]`
(to 93). -/
theorem confidencePercent_bounds_witness :
    ((0 : ℚ) ≤ 93 / 100 ∧ (93 : ℚ) / 100 ≤ 1) ∧
    0 ≤ confidencePercent (93 / 100) ∧ confidencePercent (93 / 100) ≤ 100 :=
  ⟨⟨by norm_num, by norm_num⟩,
   confidencePercent_bounds (93 / 100) (Or.inl ⟨by norm_num, by norm_num⟩)⟩

/-- Claim C10: the boundary value 1 is treated as a fraction and displays
as 100, every value strictly above 1 is passed through unchanged (so 1.01
renders as `1.0%` via `toFixed(1)`, not 101%), every value at most 1 is
scaled by 100, and the branch is decided exactly by `confidence > 1`. -/
theorem confidencePercent_boundary :
    confidencePercent 1 = 100 ∧
    (∀ c : ℚ, 1 < c → confidencePercent c = c) ∧
    (∀ c : ℚ, c ≤ 1 → confidencePercent c = c * 100) ∧
    confidencePercent (101 / 100) = 101 / 100 ∧
    round1 (confidencePercent (101 / 100)) = 1 := by
  refine ⟨?_, ?_, ?_, ?_, ?_⟩
  · norm_num [confidencePercent]
  · intro c hc
    rw [confidencePercent, if_pos hc]
  · intro c hc
    rw [confidencePercent, if_neg (by linarith)]
  · norm_num [confidencePercent]
  · norm_num [confidencePercent, round1, round_eq]

/-- Claim C10 witness: a confidence of 2 is above the boundary and is
displayed unchanged. -/
theorem confidencePercent_boundary_witness :
    (1 : ℚ) < 2 ∧ confidencePercent 2 = 2 :=
  ⟨by norm_num, confidencePercent_boundary.2.1 2 (by norm_num)⟩

/-! ### MetricsCharts: epoch series derivation -/

/-- The five parallel sequences of the metrics payload that the chart
transformation reads (the confusion matrix is consumed elsewhere). -/
structure MetricsReport where
  epochs : List ℚ
  train_accuracy : List ℚ
  val_accuracy : List ℚ
  train_loss : List ℚ
  val_loss : List ℚ

/-- One Recharts data point produced per epoch; indexing one of the four
metric arrays out of range would yield `undefined`, modelled as `none`. -/
structure EpochPoint where
  epoch : ℚ
  trainAccuracy : Option ℚ
  valAccuracy : Option ℚ
  trainLoss : Option ℚ
  valLoss : Option ℚ
  deriving DecidableEq

/-- `const chartData = metrics.epochs.map((epoch, index) => ({epoch,
trainAccuracy: metrics.train_accuracy[index], ...}))`. -/
def chartData (metrics : MetricsReport) : List EpochPoint :=
  metrics.epochs.enum.map fun p =>
    { epoch := p.2
      trainAccuracy := metrics.train_accuracy[p.1]?
      valAccuracy := metrics.val_accuracy[p.1]?
      trainLoss := metrics.train_loss[p.1]?
      valLoss := metrics.val_loss[p.1]? }

/-- Claim C9: on a report whose epochs are `1..10` and whose four metric
sequences each have length 10, the chart transformation yields exactly 10
records, in epoch order `1..10`, each carrying all four metric fields taken
from the same index. -/
theorem chartData_zips (metrics : MetricsReport)
    (he : metrics.epochs = [1, 2, 3, 4, 5, 6, 7, 8, 9, 10])
    (h1 : metrics.train_accuracy.length = 10)
    (h2 : metrics.val_accuracy.length = 10)
    (h3 : metrics.train_loss.length = 10)
    (h4 : metrics.val_loss.length = 10) :
    (chartData metrics).length = 10 ∧
    (chartData metrics).map EpochPoint.epoch =
      [1, 2, 3, 4, 5, 6, 7, 8, 9, 10] ∧
    (∀ i, i < 10 →
      (chartData metrics)[i]? = some
        { epoch := (i : ℚ) + 1
          trainAccuracy := metrics.train_accuracy[i]?
          valAccuracy := metrics.val_accuracy[i]?
          trainLoss := metrics.train_loss[i]?
          valLoss := metrics.val_loss[i]? } ∧
      (metrics.train_accuracy[i]?).isSome = true ∧
      (metrics.val_accuracy[i]?).isSome = true ∧
      (metrics.train_loss[i]?).isSome = true ∧
      (metrics.val_loss[i]?).isSome = true) := by
  have hsome : ∀ (l : List ℚ) (i : ℕ), i < l.length → (l[i]?).isSome = true := by
    intro l i h
    rw [List.getElem?_eq_getElem h]
    rfl
  have henum : ([1, 2, 3, 4, 5, 6, 7, 8, 9, 10] : List ℚ).enum =
      [(0, 1), (1, 2), (2, 3), (3, 4), (4, 5), (5, 6), (6, 7), (7, 8),
        (8, 9), (9, 10)] := rfl
  refine ⟨?_, ?_, ?_⟩
  · simp only [chartData, he, henum, List.map_cons, List.map_nil,
      List.length_cons, List.length_nil]
  · simp only [chartData, he, henum, List.map_cons, List.map_nil]
  · intro i hi
    interval_cases i <;>
      refine ⟨?_, hsome _ _ (by omega), hsome _ _ (by omega),
        hsome _ _ (by omega), hsome _ _ (by omega)⟩ <;>
      · simp only [chartData, he, henum, List.map_cons, List.map_nil]
        norm_num

/-- The mock metrics payload returned by `mockGetMetrics`. -/
def mockMetrics : MetricsReport :=
  { epochs := [1, 2, 3, 4, 5, 6, 7, 8, 9, 10]
    train_accuracy := [52/100, 65/100, 73/100, 79/100, 84/100, 87/100,
      90/100, 92/100, 94/100, 95/100]
    val_accuracy := [50/100, 62/100, 70/100, 76/100, 80/100, 83/100,
      85/100, 87/100, 88/100, 89/100]
    train_loss := [95/100, 78/100, 62/100, 50/100, 42/100, 35/100,
      28/100, 23/100, 19/100, 16/100]
    val_loss := [98/100, 82/100, 68/100, 58/100, 50/100, 45/100,
      40/100, 37/100, 35/100, 34/100] }

/-- Claim C9 witness: the mock 10-epoch report produces 10 records with
epochs `1..10` in order. -/
theorem chartData_zips_witness :
    mockMetrics.epochs = [1, 2, 3, 4, 5, 6, 7, 8, 9, 10] ∧
    (chartData mockMetrics).length = 10 ∧
    (chartData mockMetrics).map EpochPoint.epoch =
      [1, 2, 3, 4, 5, 6, 7, 8, 9, 10] :=
  ⟨rfl,
   (chartData_zips mockMetrics rfl rfl rfl rfl rfl).1,
   (chartData_zips mockMetrics rfl rfl rfl rfl rfl).2.1⟩

end RealOrAI
